import Mathlib

/-!
Verification development for the training-log dashboard core
(`application/plotlydash/dashboard_log.py`): the training-load calculator
`calc_ctl_atl`, the weekly aggregator (`update_calendar` bucketing and
`create_week_sum` formatting), and the bubble-metric remapper
(`create_week_cal` / `update_week_cal`).
-/

/-! ## Training-load calculator (`calc_ctl_atl`) -/

/-- One row of the activity DataFrame as consumed by `calc_ctl_atl`:
the recorded timestamp (seconds since epoch, as a real number so that
fractional-day gaps are exact) and the training stress score `tss`. -/
structure TssRow where
  recorded : ℝ
  tss : ℝ

instance : Inhabited TssRow := ⟨⟨0, 0⟩⟩

/-- The `df.tss.iloc[i]` accessor (out-of-range reads return the default row,
which the theorems never rely on). -/
noncomputable def tssAt (df : List TssRow) (i : ℕ) : ℝ :=
  (df.getD i default).tss

/-- The `df.recorded.iloc[i]` accessor. -/
noncomputable def recAt (df : List TssRow) (i : ℕ) : ℝ :=
  (df.getD i default).recorded

/-- `delta_t_days` from the loop body of `calc_ctl_atl`:
`(df.recorded.iloc[i+1] - df.recorded.iloc[i]).total_seconds() / (3600 * 24)`. -/
noncomputable def delta_t_days (df : List TssRow) (i : ℕ) : ℝ :=
  (recAt df (i + 1) - recAt df i) / (3600 * 24)

/-- The `atl_pre` list of `calc_ctl_atl`, as a function of the index:
`atl_pre[0] = atl_0 = 0.0` and
`atl_pre[i] = (atl_pre[i-1] + tss[i-1]/7.0) * (6.0/7.0) ** delta_t_days`. -/
noncomputable def atl_pre (df : List TssRow) : ℕ → ℝ
  | 0 => 0
  | i + 1 => (atl_pre df i + tssAt df i / 7) * (6 / 7 : ℝ) ^ delta_t_days df i

/-- The `atl_post` list of `calc_ctl_atl`:
`atl_post[0] = tss[0]/7.0 + atl_0` and
`atl_post[i] = tss[i]/7.0 + atl_post[i-1] * (6.0/7.0) ** delta_t_days`. -/
noncomputable def atl_post (df : List TssRow) : ℕ → ℝ
  | 0 => tssAt df 0 / 7 + 0
  | i + 1 => tssAt df (i + 1) / 7 + atl_post df i * (6 / 7 : ℝ) ^ delta_t_days df i

/-- The `ctl_pre` list of `calc_ctl_atl` (divisor 42, decay base 41/42). -/
noncomputable def ctl_pre (df : List TssRow) : ℕ → ℝ
  | 0 => 0
  | i + 1 => (ctl_pre df i + tssAt df i / 42) * (41 / 42 : ℝ) ^ delta_t_days df i

/-- The `ctl_post` list of `calc_ctl_atl`. -/
noncomputable def ctl_post (df : List TssRow) : ℕ → ℝ
  | 0 => tssAt df 0 / 42 + 0
  | i + 1 => tssAt df (i + 1) / 42 + ctl_post df i * (41 / 42 : ℝ) ^ delta_t_days df i

/-- The four columns `calc_ctl_atl` adds to the DataFrame. -/
structure LoadCols where
  ATL_pre : List ℝ
  CTL_pre : List ℝ
  ATL_post : List ℝ
  CTL_post : List ℝ

/-- Embedding of `calc_ctl_atl`: the loop over `range(1, len(df))` builds the
four accumulator lists, one entry per activity row. -/
noncomputable def calc_ctl_atl (df : List TssRow) : LoadCols where
  ATL_pre := (List.range df.length).map (atl_pre df)
  CTL_pre := (List.range df.length).map (ctl_pre df)
  ATL_post := (List.range df.length).map (atl_post df)
  CTL_post := (List.range df.length).map (ctl_post df)

/-! ### Spec-side series

These four definitions are written from the specification text, to be
compared with the source embedding above:
`fast_before[0] = 0`; `fast_after[0] = tss_0/7 + fast_before[0]`;
for i ≥ 1, with `Δ_i = (t_i − t_{i-1}) / 86400`,
`fast_before[i] = (fast_before[i-1] + tss_{i-1}/7) * (6/7)^Δ_i` and
`fast_after[i] = tss_i/7 + fast_after[i-1] * (6/7)^Δ_i`;
same shape for the slow series with divisor 42 and base 41/42. -/

/-- Spec-side fast (7-day) before-activity series. -/
noncomputable def fast_before (tss t : ℕ → ℝ) : ℕ → ℝ
  | 0 => 0
  | i + 1 => (fast_before tss t i + tss i / 7) * (6 / 7 : ℝ) ^ ((t (i + 1) - t i) / 86400)

/-- Spec-side fast (7-day) after-activity series. -/
noncomputable def fast_after (tss t : ℕ → ℝ) : ℕ → ℝ
  | 0 => tss 0 / 7
  | i + 1 => tss (i + 1) / 7 + fast_after tss t i * (6 / 7 : ℝ) ^ ((t (i + 1) - t i) / 86400)

/-- Spec-side slow (42-day) before-activity series. -/
noncomputable def slow_before (tss t : ℕ → ℝ) : ℕ → ℝ
  | 0 => 0
  | i + 1 => (slow_before tss t i + tss i / 42) * (41 / 42 : ℝ) ^ ((t (i + 1) - t i) / 86400)

/-- Spec-side slow (42-day) after-activity series. -/
noncomputable def slow_after (tss t : ℕ → ℝ) : ℕ → ℝ
  | 0 => tss 0 / 42
  | i + 1 => tss (i + 1) / 42 + slow_after tss t i * (41 / 42 : ℝ) ^ ((t (i + 1) - t i) / 86400)

/-- Concrete one-row activity list used by the load-calculator witnesses. -/
noncomputable def df₀ : List TssRow := [⟨0, 70⟩]

/-! ## Weekly aggregator: bucket boundaries (`update_calendar`) -/

/-- Python `date.weekday()` for a date given as a day count since 1970-01-01
(which was a Thursday): Monday = 0 .. Sunday = 6. -/
def weekday (t : ℤ) : ℤ := (t + 3) % 7

/-- Upper (exclusive) bucket boundary from `update_calendar`:
`ix = idx + 7 * (i - 1)` with `idx = today.weekday()`, and
`mon_latest = today - datetime.timedelta(ix)`. -/
def mon_latest (today : ℤ) (i : ℕ) : ℤ :=
  today - (weekday today + 7 * ((i : ℤ) - 1))

/-- Lower (inclusive) bucket boundary from `update_calendar`:
`mon_last = today - datetime.timedelta(ix + 7)`. -/
def mon_last (today : ℤ) (i : ℕ) : ℤ :=
  today - (weekday today + 7 * ((i : ℤ) - 1) + 7)

/-- Membership of an activity date in bucket `i`, the row filter
`(df.recorded.dt.date < mon_latest) & (df.recorded.dt.date >= mon_last)`. -/
def inBucket (today : ℤ) (i : ℕ) (d : ℤ) : Prop :=
  mon_last today i ≤ d ∧ d < mon_latest today i

instance (today : ℤ) (i : ℕ) (d : ℤ) : Decidable (inBucket today i d) := by
  unfold inBucket
  infer_instance

/-! ## Weekly summary (`create_week_sum`) -/

/-- A Gregorian calendar date, mirroring Python `datetime.date`. -/
structure SimpleDate where
  year : ℤ
  month : ℕ
  day : ℕ
deriving DecidableEq

/-- Gregorian leap-year rule, as implemented by Python `datetime`. -/
def isLeap (y : ℤ) : Bool :=
  (y % 4 == 0 && y % 100 != 0) || y % 400 == 0

/-- Number of days in a Gregorian month. -/
def daysInMonth (y : ℤ) (m : ℕ) : ℕ :=
  if m = 2 then (if isLeap y then 29 else 28)
  else if m = 4 ∨ m = 6 ∨ m = 9 ∨ m = 11 then 30
  else 31

/-- The next calendar day, mirroring `date + datetime.timedelta(1)`. -/
def nextDay (d : SimpleDate) : SimpleDate :=
  if d.day < daysInMonth d.year d.month then ⟨d.year, d.month, d.day + 1⟩
  else if d.month < 12 then ⟨d.year, d.month + 1, 1⟩
  else ⟨d.year + 1, 1, 1⟩

/-- Date offset by a number of days, mirroring `date + datetime.timedelta(n)`. -/
def addDays (d : SimpleDate) : ℕ → SimpleDate
  | 0 => d
  | n + 1 => nextDay (addDays d n)

/-- Python `strftime` month abbreviations (the `%b` directive). -/
def monthAbbrev : ℕ → String
  | 1 => "Jan"
  | 2 => "Feb"
  | 3 => "Mar"
  | 4 => "Apr"
  | 5 => "May"
  | 6 => "Jun"
  | 7 => "Jul"
  | 8 => "Aug"
  | 9 => "Sep"
  | 10 => "Oct"
  | 11 => "Nov"
  | 12 => "Dec"
  | _ => ""

/-- Python `strftime` directive pair used by `create_week_sum`:
abbreviated month name and unpadded day of month. -/
def strftimeBD (d : SimpleDate) : String :=
  monthAbbrev d.month ++ " " ++ toString d.day

/-- Python 3 `round` to the nearest integer, ties to even (banker's
rounding), on exact rationals. -/
def roundHalfEven (q : ℚ) : ℤ :=
  if q - ⌊q⌋ < 1 / 2 then ⌊q⌋
  else if 1 / 2 < q - ⌊q⌋ then ⌊q⌋ + 1
  else if ⌊q⌋ % 2 = 0 then ⌊q⌋ else ⌊q⌋ + 1

/-- Python fixed-point formatting with one decimal place (the `:.1f`
format specifier) for exact rationals. -/
def fmt1 (q : ℚ) : String :=
  let n := roundHalfEven (q * 10)
  let sign := if n < 0 then "-" else ""
  sign ++ toString (n.natAbs / 10) ++ "." ++ toString (n.natAbs % 10)

/-- Python fixed-point formatting with no decimal places (the `:.0f`
format specifier) for exact rationals. -/
def fmt0 (q : ℚ) : String :=
  toString (roundHalfEven q)

/-- Modelled from the spec: metres-per-mile constant `util.M_PER_MI`
(module `application.util` is absent from the sources); the bubble
`sizeref = (1609.34 * 26.2)/(0.5 * 100 ** 2)` in `create_week_cal` fixes the
marathon reference at `1609.34 * 26.2` metres, i.e. 1609.34 m per mile. -/
def M_PER_MI : ℚ := 1609.34

/-- Modelled from the spec: feet-per-metre constant `util.FT_PER_M`
(module `application.util` is absent from the sources); the spec describes
the stored elevation as elevation-in-feet, so the standard 3.28084 ft/m. -/
def FT_PER_M : ℚ := 3.28084

/-- One row of the activity DataFrame as consumed by the weekly log:
the fields of `df_week` that `create_week_sum` and `create_week_cal` read
(titles, descriptions, timestamps and paces feed only hover text, which is
not modelled). -/
structure ActRow where
  id : ℕ
  distance_m : ℚ
  moving_time_s : ℚ
  elevation_m : ℚ
  tss : ℚ
deriving DecidableEq

/-- The strings rendered by `create_week_sum` into the week-summary column:
the week-span label, the moving-time string, the elevation string and the
distance string. -/
structure WeekSummary where
  dateStr : String
  timeStr : String
  elevStr : String
  distStr : String
deriving DecidableEq

/-- Embedding of `create_week_sum`: week-span label from `date_start` and
`date_end = date_start + timedelta(6)` (merged month names when the months
differ), moving time as `--:--` under 30 s and otherwise
`f'{hrs}h{mins}m'` with `hrs = math.floor(s/3600)` and
`mins = round((s - hrs*3600)/60)`, elevation as rounded feet, distance as
miles with one decimal. -/
def create_week_sum (df_week : List ActRow) (date_start : SimpleDate) : WeekSummary where
  dateStr :=
    if date_start.month ≠ (addDays date_start 6).month then
      strftimeBD date_start ++ "-" ++ strftimeBD (addDays date_start 6)
    else
      strftimeBD date_start ++ "-" ++ toString (addDays date_start 6).day
  timeStr :=
    let s := (df_week.map (fun r => r.moving_time_s)).sum
    if s < 30 then "--:--"
    else
      toString ⌊s / 3600⌋ ++ "h" ++
        toString (roundHalfEven ((s - ⌊s / 3600⌋ * 3600) / 60)) ++ "m"
  elevStr :=
    toString (roundHalfEven ((df_week.map (fun r => r.elevation_m)).sum * FT_PER_M)) ++ " ft"
  distStr :=
    fmt1 ((df_week.map (fun r => r.distance_m)).sum / M_PER_MI) ++ " mi"

/-- An activity row with a given moving time and all other fields zero,
used for concrete `create_week_sum` inputs. -/
def movRow (s : ℚ) : ActRow := ⟨0, 0, s, 0, 0⟩

/-! ## Week bubble chart (`create_week_cal` / `update_week_cal`) -/

/-- Characters of a string before its first `>` character, mirroring
Python `txt.split('>')[0]`. -/
def takeUntilGtL : List Char → List Char
  | [] => []
  | c :: cs => if c = '>' then [] else c :: takeUntilGtL cs

/-- The anchor prefix extracted by `update_week_cal` from a bubble label:
`f"{txt.split('>')[0]}>"`. -/
def hrefOf (s : String) : String := ⟨takeUntilGtL s.data⟩ ++ ">"

/-- The customdata entries of one bubble that `update_week_cal` reads back
(array indices 4, 5, 8 and 9): distance in miles, moving time, elevation in
feet, training stress. The moving-time entry is stored as a string via
`util.seconds_to_string` and parsed back with `util.string_to_seconds`;
modelled from the spec, which calls the field
moving-time-in-seconds-as-string (module `application.util` is absent from
the sources), it is represented by the seconds value it encodes. -/
structure CData where
  distMi : ℚ
  movingTimeS : ℚ
  elevFt : ℚ
  tss : ℚ
deriving DecidableEq

/-- The marker attributes of the bubble trace set by `create_week_cal`;
`update_week_cal` reassigns only `size` and `sizeref`. -/
structure Marker where
  size : List ℚ
  sizemode : String
  sizeref : ℚ
  color : String
  line_color : String
  line_width : ℚ
  opacity : ℚ
deriving DecidableEq

/-- The week-calendar bubble figure, restricted to the trace fields the
remapper reads or writes: per-bubble label text, the marker, the per-bubble
customdata, and the layout transition duration set by
`fig.update_layout(transition_duration=1000)` (x, y, axes, hover template
and rest-day annotations are never touched by the remapper and are not
modelled). -/
structure WeekFig where
  text : List String
  marker : Marker
  customdata : List CData
  transition : Option ℕ
deriving DecidableEq

/-- The anchor tag opening a bubble label:
`f'<a href="/dash-saved-activity/{id}">'`. -/
def anchorOf (id : ℕ) : String :=
  "<a href=\"/dash-saved-activity/" ++ toString id ++ "\">"

/-- The Time bubble label of `update_week_cal`:
`f'{math.floor(s/3600)}hr{round((s % 3600) / 60)}m'`. -/
def timeLabel (s : ℚ) : String :=
  toString ⌊s / 3600⌋ ++ "hr" ++ toString (roundHalfEven ((s - 3600 * ⌊s / 3600⌋) / 60)) ++ "m"

/-- Embedding of `create_week_cal`, restricted to the bubble trace: labels
are anchors around the distance in miles with one decimal, marker sizes are
the raw distances in metres with the marathon-metres size reference, and the
customdata carries the per-activity fields later read back by
`update_week_cal`. -/
def create_week_cal (df_week : List ActRow) : WeekFig where
  text := df_week.map (fun r => anchorOf r.id ++ fmt1 (r.distance_m / M_PER_MI) ++ "</a>")
  marker :=
    { size := df_week.map (fun r => r.distance_m)
      sizemode := "area"
      sizeref := 1609.34 * 26.2 / (0.5 * 100 ^ 2)
      color := "#D5E5D3"
      line_color := "#BDD6BA"
      line_width := 1
      opacity := 1 }
  customdata := df_week.map (fun r =>
    ⟨r.distance_m / M_PER_MI, r.moving_time_s, r.elevation_m * FT_PER_M, r.tss⟩)
  transition := none

/-- Embedding of `update_week_cal`: extract the anchor prefixes from the
current labels, then on a recognized metric rebuild every label and marker
size/sizeref from the stored customdata (an unrecognized metric leaves the
trace unchanged, it is total rather than an error), and finally set the
layout transition duration. -/
def update_week_cal (fig : WeekFig) (bubble_type : String) : WeekFig :=
  let hrefs := fig.text.map hrefOf
  let fig' :=
    if bubble_type = "Time" then
      { fig with
        text := List.zipWith (fun a c => a ++ timeLabel c.movingTimeS ++ "</a>") hrefs
          fig.customdata
        marker := { fig.marker with
          size := fig.customdata.map (fun c => c.movingTimeS)
          sizeref := 3.5 * 3600 / (0.5 * 100 ^ 2) } }
    else if bubble_type = "Distance" then
      { fig with
        text := List.zipWith (fun a c => a ++ fmt1 c.distMi ++ "</a>") hrefs fig.customdata
        marker := { fig.marker with
          size := fig.customdata.map (fun c => c.distMi)
          sizeref := 26.2 / (0.5 * 100 ^ 2) } }
    else if bubble_type = "Elevation" then
      { fig with
        text := List.zipWith (fun a c => a ++ fmt0 c.elevFt ++ "</a>") hrefs fig.customdata
        marker := { fig.marker with
          size := fig.customdata.map (fun c => c.elevFt)
          sizeref := 7000 / (0.5 * 100 ^ 2) } }
    else if bubble_type = "TSS" then
      { fig with
        text := List.zipWith (fun a c => a ++ fmt1 c.tss ++ "</a>") hrefs fig.customdata
        marker := { fig.marker with
          size := fig.customdata.map (fun c => c.tss)
          sizeref := 250 / (0.5 * 100 ^ 2) } }
    else fig
  { fig' with transition := some 1000 }

/-- Proof-side normal form of one recognized-metric branch of
`update_week_cal`: label builder, size extractor and size reference. -/
def setMetric (fig : WeekFig) (lab : CData → String) (sz : CData → ℚ) (ref : ℚ) : WeekFig :=
  { fig with
    text := List.zipWith (fun a c => a ++ lab c ++ "</a>") (fig.text.map hrefOf) fig.customdata
    marker := { fig.marker with size := fig.customdata.map sz, sizeref := ref }
    transition := some 1000 }

/-- Concrete one-mile activity row used for the bubble-figure witnesses and
counterexample. -/
def actA : ActRow := ⟨1, 1609.34, 3600, 100, 50⟩

/-- Concrete initially rendered week-bubble figure. -/
def fig₀ : WeekFig := create_week_cal [actA]

/-! ## Helper lemmas for the load calculator -/

theorem getD_range_map (f : ℕ → ℝ) {n i : ℕ} (h : i < n) :
    (((List.range n).map f).getD i 0) = f i := by
  rw [List.getD_eq_getElem?_getD]
  simp [List.getElem?_range, h]

theorem atl_pre_eq_fast_before (df : List TssRow) :
    ∀ i, atl_pre df i = fast_before (tssAt df) (recAt df) i := by
  intro i
  induction i with
  | zero => rfl
  | succ n ih =>
    rw [atl_pre, fast_before, ih, delta_t_days]
    norm_num

theorem atl_post_eq_fast_after (df : List TssRow) :
    ∀ i, atl_post df i = fast_after (tssAt df) (recAt df) i := by
  intro i
  induction i with
  | zero => rw [atl_post, fast_after]; ring
  | succ n ih =>
    rw [atl_post, fast_after, ih, delta_t_days]
    norm_num

theorem ctl_pre_eq_slow_before (df : List TssRow) :
    ∀ i, ctl_pre df i = slow_before (tssAt df) (recAt df) i := by
  intro i
  induction i with
  | zero => rfl
  | succ n ih =>
    rw [ctl_pre, slow_before, ih, delta_t_days]
    norm_num

theorem ctl_post_eq_slow_after (df : List TssRow) :
    ∀ i, ctl_post df i = slow_after (tssAt df) (recAt df) i := by
  intro i
  induction i with
  | zero => rw [ctl_post, slow_after]; ring
  | succ n ih =>
    rw [ctl_post, slow_after, ih, delta_t_days]
    norm_num

/-- C1: for every chronologically sorted non-empty activity sequence,
`calc_ctl_atl` produces exactly the specified recursive pair of series
(fast divisor 7 and decay base 6/7, slow divisor 42 and decay base 41/42,
decay exponent the fractional-day gap), and for a length-1 input the columns
are `ATL_pre = CTL_pre = [0]`, `ATL_post = [tss_0/7]`, `CTL_post = [tss_0/42]`. -/
theorem calcCtlAtl_matches_spec (df : List TssRow) (hne : df ≠ [])
    (hsort : List.Chain' (fun a b => a.recorded ≤ b.recorded) df) :
    (∀ i, i < df.length →
      (calc_ctl_atl df).ATL_pre.getD i 0 = fast_before (tssAt df) (recAt df) i ∧
      (calc_ctl_atl df).ATL_post.getD i 0 = fast_after (tssAt df) (recAt df) i ∧
      (calc_ctl_atl df).CTL_pre.getD i 0 = slow_before (tssAt df) (recAt df) i ∧
      (calc_ctl_atl df).CTL_post.getD i 0 = slow_after (tssAt df) (recAt df) i) ∧
    (∀ a, df = [a] →
      (calc_ctl_atl df).ATL_pre = [0] ∧ (calc_ctl_atl df).CTL_pre = [0] ∧
      (calc_ctl_atl df).ATL_post = [a.tss / 7] ∧
      (calc_ctl_atl df).CTL_post = [a.tss / 42]) := by
  constructor
  · intro i hi
    refine ⟨?_, ?_, ?_, ?_⟩
    · rw [calc_ctl_atl, getD_range_map _ hi, atl_pre_eq_fast_before]
    · rw [calc_ctl_atl, getD_range_map _ hi, atl_post_eq_fast_after]
    · rw [calc_ctl_atl, getD_range_map _ hi, ctl_pre_eq_slow_before]
    · rw [calc_ctl_atl, getD_range_map _ hi, ctl_post_eq_slow_after]
  · rintro a rfl
    refine ⟨?_, ?_, ?_, ?_⟩
    · simp [calc_ctl_atl, List.range_succ, atl_pre]
    · simp [calc_ctl_atl, List.range_succ, ctl_pre]
    · simp [calc_ctl_atl, List.range_succ, atl_post, tssAt]
    · simp [calc_ctl_atl, List.range_succ, ctl_post, tssAt]

/-- Witness for C1 at the concrete one-activity input `df₀`. -/
theorem calcCtlAtl_matches_spec_witness :
    df₀ ≠ [] ∧ List.Chain' (fun a b => a.recorded ≤ b.recorded) df₀ ∧
    (calc_ctl_atl df₀).ATL_post.getD 0 0 = fast_after (tssAt df₀) (recAt df₀) 0 :=
  ⟨by simp [df₀], by simp [df₀],
    ((calcCtlAtl_matches_spec df₀ (by simp [df₀]) (by simp [df₀])).1 0
      (by simp [df₀])).2.1⟩

theorem tssAt_nonneg (df : List TssRow) (h : ∀ r ∈ df, 0 ≤ r.tss) :
    ∀ i, 0 ≤ tssAt df i := by
  intro i
  by_cases hi : i < df.length
  · rw [tssAt, List.getD_eq_getElem?_getD, List.getElem?_eq_getElem hi]
    exact h _ (List.getElem_mem hi)
  · rw [tssAt, List.getD_eq_getElem?_getD, List.getElem?_eq_none (by omega)]
    exact le_refl 0

theorem decay_nonneg (b : ℝ) (hb : 0 ≤ b) (x : ℝ) : 0 ≤ b ^ x :=
  Real.rpow_nonneg hb x

theorem atl_post_nonneg (df : List TssRow) (h : ∀ i, 0 ≤ tssAt df i) :
    ∀ i, 0 ≤ atl_post df i := by
  intro i
  induction i with
  | zero =>
    rw [atl_post]
    have := h 0
    positivity
  | succ n ih =>
    rw [atl_post]
    have h1 := h (n + 1)
    have h2 : (0 : ℝ) ≤ (6 / 7 : ℝ) ^ delta_t_days df n :=
      decay_nonneg _ (by norm_num) _
    have := mul_nonneg ih h2
    positivity

theorem ctl_post_nonneg (df : List TssRow) (h : ∀ i, 0 ≤ tssAt df i) :
    ∀ i, 0 ≤ ctl_post df i := by
  intro i
  induction i with
  | zero =>
    rw [ctl_post]
    have := h 0
    positivity
  | succ n ih =>
    rw [ctl_post]
    have h1 := h (n + 1)
    have h2 : (0 : ℝ) ≤ (41 / 42 : ℝ) ^ delta_t_days df n :=
      decay_nonneg _ (by norm_num) _
    have := mul_nonneg ih h2
    positivity

/-- C8: for every non-empty chronologically sorted activity sequence whose
stress scores are all non-negative, the calculator's after-columns satisfy
`ATL_post[i] ≥ 0` and `CTL_post[i] ≥ 0` at every index: the stress
accumulators never go negative. -/
theorem calcCtlAtl_post_nonneg (df : List TssRow) (hne : df ≠ [])
    (hsort : List.Chain' (fun a b => a.recorded ≤ b.recorded) df)
    (htss : ∀ r ∈ df, 0 ≤ r.tss) :
    ∀ i, i < df.length →
      0 ≤ (calc_ctl_atl df).ATL_post.getD i 0 ∧
      0 ≤ (calc_ctl_atl df).CTL_post.getD i 0 := by
  intro i hi
  have h := tssAt_nonneg df htss
  constructor
  · rw [calc_ctl_atl, getD_range_map _ hi]
    exact atl_post_nonneg df h i
  · rw [calc_ctl_atl, getD_range_map _ hi]
    exact ctl_post_nonneg df h i

/-- Witness for C8 at the concrete one-activity input `df₀`. -/
theorem calcCtlAtl_post_nonneg_witness :
    df₀ ≠ [] ∧ List.Chain' (fun a b => a.recorded ≤ b.recorded) df₀ ∧
    (∀ r ∈ df₀, 0 ≤ r.tss) ∧
    0 ≤ (calc_ctl_atl df₀).ATL_post.getD 0 0 :=
  ⟨by simp [df₀], by simp [df₀], by simp [df₀],
    (calcCtlAtl_post_nonneg df₀ (by simp [df₀]) (by simp [df₀])
      (by simp [df₀]) 0 (by simp [df₀])).1⟩

theorem atl_post_eq_pre_add (df : List TssRow) :
    ∀ i, atl_post df i = atl_pre df i + tssAt df i / 7 := by
  intro i
  induction i with
  | zero => rw [atl_post, atl_pre]; ring
  | succ n ih => rw [atl_post, atl_pre, ih]; ring

theorem ctl_post_eq_pre_add (df : List TssRow) :
    ∀ i, ctl_post df i = ctl_pre df i + tssAt df i / 42 := by
  intro i
  induction i with
  | zero => rw [ctl_post, ctl_pre]; ring
  | succ n ih => rw [ctl_post, ctl_pre, ih]; ring

/-- C10: for every chronologically sorted non-empty activity sequence and
every index, each sample's after value equals its before value plus that
activity's own stress contribution, `ATL_post[i] = ATL_pre[i] + tss_i/7` and
`CTL_post[i] = CTL_pre[i] + tss_i/42`, even though the two values are
computed by separate recurrences. -/
theorem calcCtlAtl_post_eq_pre_add (df : List TssRow) (hne : df ≠ [])
    (hsort : List.Chain' (fun a b => a.recorded ≤ b.recorded) df) :
    ∀ i, i < df.length →
      (calc_ctl_atl df).ATL_post.getD i 0 =
        (calc_ctl_atl df).ATL_pre.getD i 0 + tssAt df i / 7 ∧
      (calc_ctl_atl df).CTL_post.getD i 0 =
        (calc_ctl_atl df).CTL_pre.getD i 0 + tssAt df i / 42 := by
  intro i hi
  constructor
  · rw [calc_ctl_atl, getD_range_map _ hi, getD_range_map _ hi]
    exact atl_post_eq_pre_add df i
  · rw [calc_ctl_atl, getD_range_map _ hi, getD_range_map _ hi]
    exact ctl_post_eq_pre_add df i

/-- Witness for C10 at the concrete one-activity input `df₀`. -/
theorem calcCtlAtl_post_eq_pre_add_witness :
    df₀ ≠ [] ∧ List.Chain' (fun a b => a.recorded ≤ b.recorded) df₀ ∧
    (calc_ctl_atl df₀).ATL_post.getD 0 0 =
      (calc_ctl_atl df₀).ATL_pre.getD 0 0 + tssAt df₀ 0 / 7 :=
  ⟨by simp [df₀], by simp [df₀],
    (calcCtlAtl_post_eq_pre_add df₀ (by simp [df₀]) (by simp [df₀]) 0
      (by simp [df₀])).1⟩

/-! ## Week bucketing theorems -/

/-- C3: week bucketing is a partition. Bucket boundaries are Monday-aligned
with each bucket a half-open Monday-to-next-Monday range, consecutive buckets
abut exactly, buckets with distinct indices are pairwise disjoint, a
pagination window's three buckets span exactly 21 days, and every date inside
that span belongs to exactly one of the window's three buckets. -/
theorem weekBuckets_partition (today : ℤ) (w : ℕ) (d : ℤ) :
    (∀ i : ℕ, weekday (mon_last today i) = 0 ∧
      mon_latest today i = mon_last today i + 7) ∧
    (∀ i : ℕ, mon_latest today (i + 1) = mon_last today i) ∧
    (∀ i j : ℕ, i ≠ j → ¬(inBucket today i d ∧ inBucket today j d)) ∧
    (mon_latest today (3 * w) - mon_last today (3 * w + 2) = 21) ∧
    (mon_last today (3 * w + 2) ≤ d → d < mon_latest today (3 * w) →
      (inBucket today (3 * w) d ∧ ¬inBucket today (3 * w + 1) d ∧
        ¬inBucket today (3 * w + 2) d) ∨
      (¬inBucket today (3 * w) d ∧ inBucket today (3 * w + 1) d ∧
        ¬inBucket today (3 * w + 2) d) ∨
      (¬inBucket today (3 * w) d ∧ ¬inBucket today (3 * w + 1) d ∧
        inBucket today (3 * w + 2) d)) := by
  refine ⟨?_, ?_, ?_, ?_, ?_⟩
  · intro i
    simp only [mon_last, mon_latest, weekday]
    omega
  · intro i
    simp only [mon_last, mon_latest]
    push_cast
    ring
  · intro i j hij
    simp only [inBucket, mon_last, mon_latest]
    omega
  · simp only [mon_last, mon_latest]
    push_cast
    ring
  · intro h1 h2
    simp only [inBucket, mon_last, mon_latest, weekday] at h1 h2 ⊢
    omega

/-- Witness for C3: `today = 6` (Wednesday 1970-01-07), window 0, activity
date 5 inside the window's span; it lies in exactly one bucket. -/
theorem weekBuckets_partition_witness :
    mon_last 6 2 ≤ 5 ∧ (5 : ℤ) < mon_latest 6 0 ∧
    ((inBucket 6 0 5 ∧ ¬inBucket 6 1 5 ∧ ¬inBucket 6 2 5) ∨
      (¬inBucket 6 0 5 ∧ inBucket 6 1 5 ∧ ¬inBucket 6 2 5) ∨
      (¬inBucket 6 0 5 ∧ ¬inBucket 6 1 5 ∧ inBucket 6 2 5)) :=
  ⟨by decide, by decide,
    (weekBuckets_partition 6 0 5).2.2.2.2 (by decide) (by decide)⟩

/-- C4 counterexample: with `today = 6` (Wednesday 1970-01-07), the date
`6` (today itself) lies in bucket 0 of window 0, so it is false that every
date in every generated bucket of window 0 lies strictly before today's week
(today's week starts at `today - weekday today = 4`): the newest bucket is
the current in-progress week, not the most recent complete week. -/
theorem weekWindow0_cex : inBucket 6 0 6 ∧ ¬((6 : ℤ) < 6 - weekday 6) := by
  decide

/-- C4 amended: window boundaries are computed backward from the current
date, but the newest bucket of window 0 is the current in-progress week
`[today - weekday today, today - weekday today + 7)`, which contains today;
each subsequent window's three buckets are shifted 3×7 days further into the
past (bucket `i + 3` has bucket `i`'s bounds minus 21 days). -/
theorem weekWindow_boundaries (today : ℤ) (i : ℕ) :
    mon_last today 0 = today - weekday today ∧
    mon_latest today 0 = today - weekday today + 7 ∧
    inBucket today 0 today ∧
    mon_last today (i + 3) = mon_last today i - 3 * 7 ∧
    mon_latest today (i + 3) = mon_latest today i - 3 * 7 := by
  simp only [inBucket, mon_last, mon_latest, weekday]
  omega

/-! ## Weekly summary theorems -/

/-- C2 (failing-input evaluation): `create_week_sum` renders a weekly
moving-time sum of 7199 s as `"1h60m"`: `hrs = floor(7199/3600) = 1` and
`mins = round(3599/60) = 60`, and the minute rounding does not carry into
the hour, contradicting the claimed `"2h0m"`. The placeholder branch and the
3661 s case behave as claimed. -/
theorem createWeekSum_time_eval :
    (create_week_sum [movRow 7199] ⟨2021, 1, 25⟩).timeStr = "1h60m" ∧
    (create_week_sum [movRow 3661] ⟨2021, 1, 25⟩).timeStr = "1h1m" ∧
    (create_week_sum [movRow 25] ⟨2021, 1, 25⟩).timeStr = "--:--" ∧
    (create_week_sum [movRow 0] ⟨2021, 1, 25⟩).timeStr = "--:--" := by
  refine ⟨?_, ?_, ?_, ?_⟩
  · have h1 : (⌊(7199 : ℚ) / 3600⌋ : ℤ) = 1 := by norm_num [Int.floor_eq_iff]
    have h2 : ((7199 : ℚ) - ((1 : ℤ) : ℚ) * 3600) / 60 = 3599 / 60 := by norm_num
    have h3 : roundHalfEven ((3599 : ℚ) / 60) = 60 := by
      have h : (⌊(3599 : ℚ) / 60⌋ : ℤ) = 59 := by norm_num [Int.floor_eq_iff]
      rw [roundHalfEven, h]
      norm_num
    simp only [create_week_sum, movRow, List.map_cons, List.map_nil, List.sum_cons,
      List.sum_nil, add_zero]
    rw [if_neg (by norm_num), h1, h2, h3]
    decide
  · have h1 : (⌊(3661 : ℚ) / 3600⌋ : ℤ) = 1 := by norm_num [Int.floor_eq_iff]
    have h2 : ((3661 : ℚ) - ((1 : ℤ) : ℚ) * 3600) / 60 = 61 / 60 := by norm_num
    have h3 : roundHalfEven ((61 : ℚ) / 60) = 1 := by
      have h : (⌊(61 : ℚ) / 60⌋ : ℤ) = 1 := by norm_num [Int.floor_eq_iff]
      rw [roundHalfEven, h]
      norm_num
    simp only [create_week_sum, movRow, List.map_cons, List.map_nil, List.sum_cons,
      List.sum_nil, add_zero]
    rw [if_neg (by norm_num), h1, h2, h3]
    decide
  · simp only [create_week_sum, movRow, List.map_cons, List.map_nil, List.sum_cons,
      List.sum_nil, add_zero]
    rw [if_pos (by norm_num)]
  · simp only [create_week_sum, movRow, List.map_cons, List.map_nil, List.sum_cons,
      List.sum_nil, add_zero]
    rw [if_pos (by norm_num)]

/-- C9: the week-span label merges month names exactly when the week's start
and end months differ and uses the compact single-month form otherwise, with
the end date always start + 6 days; concretely, a week starting Jan 29
renders as `"Jan 29-Feb 4"` and a week starting Jan 25 as `"Jan 25-31"`. -/
theorem createWeekSum_dateStr_spec :
    (∀ (df : List ActRow) (d : SimpleDate),
      (create_week_sum df d).dateStr =
        if (addDays d 6).month = d.month then
          strftimeBD d ++ "-" ++ toString (addDays d 6).day
        else
          strftimeBD d ++ "-" ++ strftimeBD (addDays d 6)) ∧
    (create_week_sum [] ⟨2021, 1, 29⟩).dateStr = "Jan 29-Feb 4" ∧
    (create_week_sum [] ⟨2021, 1, 25⟩).dateStr = "Jan 25-31" := by
  refine ⟨?_, by decide, by decide⟩
  intro df d
  by_cases h : (addDays d 6).month = d.month
  · simp [create_week_sum, h]
  · simp [create_week_sum, h, Ne.symm h]

/-! ## Bubble-figure helper lemmas -/

theorem data_app (a b : String) : (a ++ b).data = a.data ++ b.data := by
  cases a
  cases b
  rfl

theorem str_ext (a b : String) (h : a.data = b.data) : a = b := by
  cases a
  cases b
  exact congrArg String.mk h

theorem str_append_assoc (a b c : String) : a ++ b ++ c = a ++ (b ++ c) := by
  apply str_ext
  simp [data_app]

theorem takeUntilGtL_noGt : ∀ l : List Char, ∀ c ∈ takeUntilGtL l, c ≠ '>'
  | [] => by simp [takeUntilGtL]
  | c :: cs => by
    rw [takeUntilGtL]
    split
    · simp
    · intro x hx
      rcases List.mem_cons.1 hx with h | h
      · subst h
        rename_i hc
        exact hc
      · exact takeUntilGtL_noGt cs x h

theorem takeUntilGtL_append_gt : ∀ (l r : List Char), (∀ c ∈ l, c ≠ '>') →
    takeUntilGtL (l ++ '>' :: r) = l
  | [], r, _ => by simp [takeUntilGtL]
  | c :: cs, r, h => by
    rw [List.cons_append, takeUntilGtL, if_neg (h c (by simp)),
      takeUntilGtL_append_gt cs r (fun x hx => h x (by simp [hx]))]

theorem hrefOf_append_hrefOf (t r : String) : hrefOf (hrefOf t ++ r) = hrefOf t := by
  apply str_ext
  simp only [hrefOf, data_app]
  show takeUntilGtL ((takeUntilGtL t.data ++ (">" : String).data) ++ r.data) ++ _ = _
  rw [show ((">" : String).data) = ['>'] from rfl, List.append_assoc, List.singleton_append,
    takeUntilGtL_append_gt _ _ (takeUntilGtL_noGt t.data)]

theorem text_roundtrip (lab lab' : CData → String) : ∀ (ts : List String) (cd : List CData),
    List.zipWith (fun a c => a ++ lab c ++ "</a>")
      ((List.zipWith (fun a c => a ++ lab' c ++ "</a>") (ts.map hrefOf) cd).map hrefOf) cd
    = List.zipWith (fun a c => a ++ lab c ++ "</a>") (ts.map hrefOf) cd
  | [], cd => by simp
  | t :: ts, [] => by simp
  | t :: ts, c :: cd => by
    simp only [List.map_cons, List.zipWith_cons_cons]
    refine congrArg₂ _ ?_ (text_roundtrip lab lab' ts cd)
    rw [str_append_assoc (hrefOf t) (lab' c), hrefOf_append_hrefOf]

theorem setMetric_setMetric (fig : WeekFig) (lab lab' : CData → String)
    (sz sz' : CData → ℚ) (ref ref' : ℚ) :
    setMetric (setMetric fig lab' sz' ref') lab sz ref = setMetric fig lab sz ref := by
  simp only [setMetric]
  exact congrArg₂ (fun t m => WeekFig.mk t m fig.customdata (some 1000))
    (text_roundtrip lab lab' fig.text fig.customdata) rfl

theorem update_eq_setMetric_time (fig : WeekFig) :
    update_week_cal fig "Time" =
      setMetric fig (fun c => timeLabel c.movingTimeS) (fun c => c.movingTimeS)
        (3.5 * 3600 / (0.5 * 100 ^ 2)) := rfl

theorem update_eq_setMetric_distance (fig : WeekFig) :
    update_week_cal fig "Distance" =
      setMetric fig (fun c => fmt1 c.distMi) (fun c => c.distMi)
        (26.2 / (0.5 * 100 ^ 2)) := rfl

theorem update_eq_setMetric_elevation (fig : WeekFig) :
    update_week_cal fig "Elevation" =
      setMetric fig (fun c => fmt0 c.elevFt) (fun c => c.elevFt)
        (7000 / (0.5 * 100 ^ 2)) := rfl

theorem update_eq_setMetric_tss (fig : WeekFig) :
    update_week_cal fig "TSS" =
      setMetric fig (fun c => fmt1 c.tss) (fun c => c.tss)
        (250 / (0.5 * 100 ^ 2)) := rfl

theorem update_branch_of_mem (m : String)
    (hm : m ∈ (["Distance", "Time", "Elevation", "TSS"] : List String)) :
    ∃ lab sz ref, ∀ fig, update_week_cal fig m = setMetric fig lab sz ref := by
  simp only [List.mem_cons, List.not_mem_nil, or_false] at hm
  rcases hm with rfl | rfl | rfl | rfl
  · exact ⟨_, _, _, update_eq_setMetric_distance⟩
  · exact ⟨_, _, _, update_eq_setMetric_time⟩
  · exact ⟨_, _, _, update_eq_setMetric_elevation⟩
  · exact ⟨_, _, _, update_eq_setMetric_tss⟩

/-! ## Metric remapper theorems -/

/-- C5: for every week-bubble figure and every metric name outside the
closed set Distance/Time/Elevation/TSS, the remapper leaves every bubble's
label text, marker size and size reference unchanged (it is a total no-op on
the trace rather than an error). -/
theorem updateWeekCal_unknown_noop (fig : WeekFig) (bt : String)
    (h : bt ∉ (["Distance", "Time", "Elevation", "TSS"] : List String)) :
    (update_week_cal fig bt).text = fig.text ∧
    (update_week_cal fig bt).marker.size = fig.marker.size ∧
    (update_week_cal fig bt).marker.sizeref = fig.marker.sizeref := by
  simp only [List.mem_cons, List.mem_singleton, not_or] at h
  obtain ⟨h1, h2, h3, h4⟩ := h
  simp [update_week_cal, h1, h2, h3, h4]

/-- Witness for C5 at the concrete figure `fig₀` and metric `"Pace"`. -/
theorem updateWeekCal_unknown_noop_witness :
    ("Pace" ∉ (["Distance", "Time", "Elevation", "TSS"] : List String)) ∧
    ((update_week_cal fig₀ "Pace").text = fig₀.text ∧
      (update_week_cal fig₀ "Pace").marker.size = fig₀.marker.size ∧
      (update_week_cal fig₀ "Pace").marker.sizeref = fig₀.marker.sizeref) :=
  ⟨by decide, updateWeekCal_unknown_noop fig₀ "Pace" (by decide)⟩

/-- C7: metric remapping is idempotent: applying the remapper with
`"Distance"` twice in a row produces identical output both times, because
the result is a pure function of the stored customdata and the anchor
prefix, not of the displayed size/label state. -/
theorem updateWeekCal_idempotent (fig : WeekFig) :
    update_week_cal (update_week_cal fig "Distance") "Distance" =
      update_week_cal fig "Distance" := by
  simp only [update_eq_setMetric_distance]
  exact setMetric_setMetric fig _ _ _ _ _ _

/-- C6 counterexample: starting from the initially rendered figure
`fig₀ = create_week_cal [actA]` (displayed metric Distance, marker sizes in
metres), switching the metric to Time and back to Distance does not
reproduce the original marker sizes: the round trip yields the distance in
miles (1609.34 / 1609.34 = 1) where the initial figure stored 1609.34
metres. -/
theorem metricRoundtrip_initial_cex :
    (update_week_cal (update_week_cal fig₀ "Time") "Distance").marker.size ≠
      fig₀.marker.size := by
  rw [update_eq_setMetric_time, update_eq_setMetric_distance]
  simp only [setMetric, fig₀, create_week_cal, actA, List.map_cons, List.map_nil,
    ne_eq, List.cons.injEq, and_true, not_and]
  intro h
  rw [M_PER_MI] at h
  norm_num at h

/-- C6 amended: for every figure whose displayed state was produced by the
remapper (any `update_week_cal fig m` with a recognized metric), switching
the metric to `m'` and back to `m` reproduces the figure exactly — sizes,
size reference and labels — for all metrics m, m' in
Distance/Time/Elevation/TSS. (From the initially rendered figure the labels
are reproduced but the metres-based marker sizes are rescaled to miles, per
the counterexample.) -/
theorem metricRoundtrip_after_remap (fig : WeekFig) (m m' : String)
    (hm : m ∈ (["Distance", "Time", "Elevation", "TSS"] : List String))
    (hm' : m' ∈ (["Distance", "Time", "Elevation", "TSS"] : List String)) :
    update_week_cal (update_week_cal (update_week_cal fig m) m') m =
      update_week_cal fig m := by
  obtain ⟨lab, sz, ref, hb⟩ := update_branch_of_mem m hm
  obtain ⟨lab', sz', ref', hb'⟩ := update_branch_of_mem m' hm'
  rw [hb fig, hb', hb, setMetric_setMetric, setMetric_setMetric]

/-- Witness for the amended C6 at the concrete figure `fig₀` with metrics
Distance and Time. -/
theorem metricRoundtrip_after_remap_witness :
    ("Distance" ∈ (["Distance", "Time", "Elevation", "TSS"] : List String)) ∧
    ("Time" ∈ (["Distance", "Time", "Elevation", "TSS"] : List String)) ∧
    update_week_cal (update_week_cal (update_week_cal fig₀ "Distance") "Time") "Distance" =
      update_week_cal fig₀ "Distance" :=
  ⟨by decide, by decide,
    metricRoundtrip_after_remap fig₀ "Distance" "Time" (by decide) (by decide)⟩
